import Mathlib

/-!
Verification of the scrape-then-geocode-then-emit pipeline scripts
(`scripts/pharmacy_scraper.py`, `scripts/quick_geocode.py`,
`scripts/geocode_rabat.py`, `scripts/test_places_api.py`,
`scripts/resume_geocode.py`, `scripts/final_integrate.py`).

Shallow embedding conventions:
- Python floats are modelled as `ℚ` (the scripts only move coordinate values
  around and compare them with `0.0` / write them out; no float arithmetic
  is performed on them).
- A network interaction is modelled by its observable outcome: either a
  transport-level exception (`Except.error ()`) or a decoded JSON response
  (`Except.ok`).  A response missing the `status` / `results` keys raises
  inside the same `try` block as the transport call, so it is subsumed by
  the `Except.error` case.
- `result['formatted_address']` is modelled as an always-present string
  field: every script either indexes it directly on the success path or
  supplies a default via `.get`.
- File writes are modelled by returning the written data (checkpoint
  snapshots are accumulated and returned alongside the final list).
-/

/-- One element of the `results` array of a geocoding / places response
(`geometry.location.lat/lng` plus the optional extras the scripts read). -/
structure PlaceResult where
  lat : ℚ
  lng : ℚ
  formatted_address : String
  rating : Option ℚ
  user_ratings_total : Option Int
  place_id : Option String
  deriving DecidableEq

/-- The decoded JSON body of a geocoding / places response: a top-level
`status` string and a `results` array. -/
structure GeoResponse where
  status : String
  results : List PlaceResult
  deriving DecidableEq

/-- Observable outcome of one HTTP call to the geocoding endpoint:
`error` is a transport exception, `ok` a decoded response. -/
abbrev Outcome := Except Unit GeoResponse

/-- `PharmacyRaw` dataclass of `pharmacy_scraper.py` (lines 21-28). -/
structure PharmacyRaw where
  name : String
  address : String
  city : String
  phone : String
  page_number : Nat
  source_url : String
  deriving DecidableEq

/-- `Pharmacy` dataclass of `pharmacy_scraper.py` (lines 30-54). -/
structure Pharmacy where
  id : String
  name : String
  name_ar : Option String
  address : String
  address_ar : Option String
  city : String
  latitude : ℚ
  longitude : ℚ
  phone_number : String
  email : Option String
  website : Option String
  opening_hours : String
  is_24_hours : Bool
  has_parking : Bool
  is_guard_pharmacy : Bool
  rating : ℚ
  review_count : Int
  image_url : Option String
  services : List String
  distance : Option ℚ
  last_updated : String
  geocoded : Bool
  geocode_status : String
  deriving DecidableEq

/-- The dict returned by `PharmacyScraper.geocode_address`. -/
structure GeoRes where
  latitude : ℚ
  longitude : ℚ
  formatted_address : String
  status : String
  deriving DecidableEq

/-- `PharmacyScraper.geocode_address` (`pharmacy_scraper.py` lines 151-187):
on a transport exception return status `ERROR` with `(0,0)`; if the response
status is `OK` and the results array is nonempty, return the first result
with status `OK`; otherwise return the reported status with `(0,0)`.
(When the status is `OK` but the results array is empty, the Python `else`
branch returns `data['status']`, i.e. the string `OK`, with `(0,0)`.) -/
def geocode_address (address _city : String) (o : Outcome) : GeoRes :=
  match o with
  | .error _ => ⟨0, 0, address, "ERROR"⟩
  | .ok data =>
    if data.status = "OK" then
      match data.results with
      | [] => ⟨0, 0, address, data.status⟩
      | r :: _ => ⟨r.lat, r.lng, r.formatted_address, "OK"⟩
    else ⟨0, 0, address, data.status⟩

/-- Python `f"{n:04d}"` for a natural number. -/
def pad4 (n : Nat) : String :=
  if n < 10 then "000" ++ toString n
  else if n < 100 then "00" ++ toString n
  else if n < 1000 then "0" ++ toString n
  else toString n

/-- The `Pharmacy(...)` construction inside
`PharmacyScraper.geocode_pharmacies` (`pharmacy_scraper.py` lines 198-228)
for the record at 0-based index `i`.  `datetime.now().isoformat()` is the
parameter `now`.  Note the code sets
`geocoded = geo_result['latitude'] != 0.0`. -/
def mk_pharmacy (i : Nat) (raw : PharmacyRaw) (g : GeoRes) (now : String) : Pharmacy :=
  { id := "pharmacy_kenitra_" ++ pad4 (i + 1)
    name := raw.name
    name_ar := none
    address := raw.address
    address_ar := none
    city := raw.city
    latitude := g.latitude
    longitude := g.longitude
    phone_number := raw.phone
    email := none
    website := none
    opening_hours := "Lun-Ven: 09:00-19:00 | Sam: 09:00-13:00"
    is_24_hours := false
    has_parking := false
    is_guard_pharmacy := false
    rating := 0
    review_count := 0
    image_url := none
    services := []
    distance := none
    last_updated := now
    geocoded := decide (g.latitude ≠ 0)
    geocode_status := g.status }

/-- `PharmacyScraper.geocode_pharmacies` (`pharmacy_scraper.py` lines
189-240), with the per-record network outcome supplied alongside each raw
record (the loop issues one call per record, in order). -/
def geocode_pharmacies (l : List (PharmacyRaw × Outcome)) (now : String) : List Pharmacy :=
  l.enum.map (fun p => mk_pharmacy p.1 p.2.1 (geocode_address p.2.1.address p.2.1.city p.2.2) now)

theorem geocode_address_status_of_lat_ne (a c : String) (o : Outcome)
    (h : (geocode_address a c o).latitude ≠ 0) :
    (geocode_address a c o).status = "OK" := by
  cases o with
  | error e => simp [geocode_address] at h
  | ok d =>
    by_cases hs : d.status = "OK"
    · cases hr : d.results with
      | nil => simp [geocode_address, hs, hr] at h
      | cons r rest => simp [geocode_address, hs, hr]
    · simp [geocode_address, hs] at h

/-- C1 (amended): every record produced by `geocode_pharmacies` has
`geocoded = true` iff its latitude differs from the sentinel latitude `0`;
consequently `geocoded = true` implies `geocode_status = "OK"` and
non-sentinel coordinates, but a status-`OK` result whose latitude is
exactly `0` (with nonzero longitude) yields `geocoded = false`. -/
theorem geocode_pharmacies_geocoded_flag (l : List (PharmacyRaw × Outcome)) (now : String)
    (p : Pharmacy) (hp : p ∈ geocode_pharmacies l now) :
    (p.geocoded = true ↔ p.latitude ≠ 0) ∧
    (p.geocoded = true → p.geocode_status = "OK" ∧ (p.latitude, p.longitude) ≠ ((0 : ℚ), (0 : ℚ))) := by
  obtain ⟨⟨i, r, o⟩, -, rfl⟩ := List.mem_map.mp hp
  constructor
  · simp [mk_pharmacy]
  · intro hg
    simp only [mk_pharmacy, decide_eq_true_eq] at hg ⊢
    refine ⟨geocode_address_status_of_lat_ne _ _ _ hg, ?_⟩
    intro hpair
    exact hg (congrArg Prod.fst hpair)

def c1_witness_raw : PharmacyRaw :=
  ⟨"Pharmacie A", "Pharmacie A, Kénitra, Morocco", "Kénitra", "05 37 00 00 00", 1,
    "https://www.annuaire-gratuit.ma/recherche/pharmacies-ville-kénitra-pg1"⟩

def c1_witness_input : List (PharmacyRaw × Outcome) :=
  [(c1_witness_raw, Except.ok ⟨"OK", [⟨34, -6, "Kenitra, Morocco", none, none, none⟩]⟩)]

def c1_witness_rec : Pharmacy :=
  mk_pharmacy 0 c1_witness_raw
    (geocode_address c1_witness_raw.address c1_witness_raw.city
      (Except.ok ⟨"OK", [⟨34, -6, "Kenitra, Morocco", none, none, none⟩]⟩)) "t"

theorem geocode_pharmacies_geocoded_flag_witness :
    c1_witness_rec ∈ geocode_pharmacies c1_witness_input "t" ∧
    (c1_witness_rec.geocoded = true ↔ c1_witness_rec.latitude ≠ 0) ∧
    (c1_witness_rec.geocoded = true →
      c1_witness_rec.geocode_status = "OK" ∧
      (c1_witness_rec.latitude, c1_witness_rec.longitude) ≠ ((0 : ℚ), (0 : ℚ))) := by
  have hm : c1_witness_rec ∈ geocode_pharmacies c1_witness_input "t" := by
    have he : geocode_pharmacies c1_witness_input "t" = [c1_witness_rec] := rfl
    rw [he]
    exact List.mem_singleton.mpr rfl
  exact ⟨hm, geocode_pharmacies_geocoded_flag c1_witness_input "t" c1_witness_rec hm⟩

def c1_cex_input : List (PharmacyRaw × Outcome) :=
  [(c1_witness_raw, Except.ok ⟨"OK", [⟨0, -1, "Equator, Morocco", none, none, none⟩]⟩)]

/-- C1 (counterexample to the claim as stated): feeding
`geocode_pharmacies` a status-`OK` response whose first result has
latitude `0` and longitude `-1` (non-sentinel pair) yields a record with
`geocode_status = "OK"` and `(latitude, longitude) ≠ (0,0)` but
`geocoded = false` — the claimed iff fails. -/
theorem geocode_pharmacies_geocoded_flag_cex :
    ¬ (∀ p ∈ geocode_pharmacies c1_cex_input "t",
        (p.geocoded = true ↔ p.geocode_status = "OK" ∧ (p.latitude, p.longitude) ≠ ((0 : ℚ), (0 : ℚ)))) := by
  decide

/-- C3: the Geocoder (`PharmacyScraper.geocode_address`) reports, for any
query: on a transport exception, status `ERROR` with sentinel coordinates
`(0,0)`; on a non-`OK` API status or an empty results array, the status
reported by the API with sentinel coordinates; on success, status `OK`
with the latitude/longitude (and formatted address) of the first element
of the results array — the result is the same for every tail `rest`, so no
other element is ever used. -/
theorem geocode_address_cases (a c : String) :
    (geocode_address a c (Except.error ()) = ⟨0, 0, a, "ERROR"⟩) ∧
    (∀ d : GeoResponse, d.status ≠ "OK" ∨ d.results = [] →
      geocode_address a c (Except.ok d) = ⟨0, 0, a, d.status⟩) ∧
    (∀ (d : GeoResponse) (r : PlaceResult) (rest : List PlaceResult),
      d.status = "OK" → d.results = r :: rest →
      geocode_address a c (Except.ok d) = ⟨r.lat, r.lng, r.formatted_address, "OK"⟩) := by
  refine ⟨rfl, ?_, ?_⟩
  · intro d hd
    rcases hd with hd | hd
    · simp [geocode_address, hd]
    · by_cases hs : d.status = "OK" <;> simp [geocode_address, hd, hs]
  · intro d r rest hs hr
    simp [geocode_address, hs, hr]

theorem geocode_address_cases_witness :
    (geocode_address "A, Kénitra, Morocco" "Kénitra" (Except.error ()) =
      ⟨0, 0, "A, Kénitra, Morocco", "ERROR"⟩) ∧
    (geocode_address "A, Kénitra, Morocco" "Kénitra"
      (Except.ok ⟨"ZERO_RESULTS", []⟩) = ⟨0, 0, "A, Kénitra, Morocco", "ZERO_RESULTS"⟩) ∧
    (geocode_address "A, Kénitra, Morocco" "Kénitra"
      (Except.ok ⟨"OK", [⟨34, -6, "F", none, none, none⟩, ⟨1, 2, "G", none, none, none⟩]⟩) =
      ⟨34, -6, "F", "OK"⟩) := by
  refine ⟨(geocode_address_cases _ _).1, ?_, ?_⟩
  · exact (geocode_address_cases "A, Kénitra, Morocco" "Kénitra").2.1
      ⟨"ZERO_RESULTS", []⟩ (Or.inr rfl)
  · exact (geocode_address_cases "A, Kénitra, Morocco" "Kénitra").2.2
      ⟨"OK", [⟨34, -6, "F", none, none, none⟩, ⟨1, 2, "G", none, none, none⟩]⟩
      ⟨34, -6, "F", none, none, none⟩ [⟨1, 2, "G", none, none, none⟩] rfl rfl

/-- Models `re.sub(r"[^\d]", "", s)` on the character list of the phone
text (`pharmacy_scraper.py` line 107): every non-digit character is
removed.  Python's `\d` is modelled as the decimal-digit test. -/
def clean_phone (s : List Char) : List Char := s.filter Char.isDigit

/-- The reformatting step of `pharmacy_scraper.py` lines 109-110: if the
cleaned phone has exactly 10 digits it becomes
`phone[:2] phone[2:4] phone[4:6] phone[6:8] phone[8:10]`, otherwise it is
left unchanged. -/
def format_phone (p : List Char) : List Char :=
  if p.length = 10 then
    p.take 2 ++ ' ' :: (p.drop 2).take 2 ++ ' ' :: (p.drop 4).take 2 ++
      ' ' :: (p.drop 6).take 2 ++ ' ' :: (p.drop 8).take 2
  else p

/-- Phone normalization as performed by `PharmacyScraper.scrape_page`
(`pharmacy_scraper.py` lines 102-110) on a present phone element. -/
def normalize_phone (s : String) : String := String.mk (format_phone (clean_phone s.toList))

/-- Modelled from the spec: split a character list into consecutive
2-character groups (used only to state the five-2-digit-groups property). -/
def chunks2 : List Char → List (List Char)
  | [] => []
  | [a] => [[a]]
  | a :: b :: rest => [a, b] :: chunks2 rest

theorem ne_space_of_isDigit (c : Char) (h : c.isDigit = true) : ¬ (c = ' ') := by
  intro e
  rw [e] at h
  exact absurd h (by decide)

theorem format_phone_ten (l : List Char) (h10 : l.length = 10)
    (hd : ∀ c ∈ l, c.isDigit = true) :
    format_phone l = List.intercalate [' '] (chunks2 l) ∧
    (format_phone l).length = 14 ∧
    (format_phone l).count ' ' = 4 ∧
    (format_phone l).filter Char.isDigit = l := by
  rcases l with - | ⟨a0, l⟩; · simp at h10
  rcases l with - | ⟨a1, l⟩; · simp at h10
  rcases l with - | ⟨a2, l⟩; · simp at h10
  rcases l with - | ⟨a3, l⟩; · simp at h10
  rcases l with - | ⟨a4, l⟩; · simp at h10
  rcases l with - | ⟨a5, l⟩; · simp at h10
  rcases l with - | ⟨a6, l⟩; · simp at h10
  rcases l with - | ⟨a7, l⟩; · simp at h10
  rcases l with - | ⟨a8, l⟩; · simp at h10
  rcases l with - | ⟨a9, l⟩; · simp at h10
  rcases l with - | ⟨a10, l⟩
  case cons => simp at h10
  have h0 : a0.isDigit = true := hd a0 (by simp)
  have h1 : a1.isDigit = true := hd a1 (by simp)
  have h2 : a2.isDigit = true := hd a2 (by simp)
  have h3 : a3.isDigit = true := hd a3 (by simp)
  have h4 : a4.isDigit = true := hd a4 (by simp)
  have h5 : a5.isDigit = true := hd a5 (by simp)
  have h6 : a6.isDigit = true := hd a6 (by simp)
  have h7 : a7.isDigit = true := hd a7 (by simp)
  have h8 : a8.isDigit = true := hd a8 (by simp)
  have h9 : a9.isDigit = true := hd a9 (by simp)
  refine ⟨rfl, rfl, ?_, ?_⟩
  · simp [format_phone, List.count_cons, ne_space_of_isDigit _ h0,
      ne_space_of_isDigit _ h1, ne_space_of_isDigit _ h2, ne_space_of_isDigit _ h3,
      ne_space_of_isDigit _ h4, ne_space_of_isDigit _ h5, ne_space_of_isDigit _ h6,
      ne_space_of_isDigit _ h7, ne_space_of_isDigit _ h8, ne_space_of_isDigit _ h9]
  · simp [format_phone, List.filter, h0, h1, h2, h3, h4, h5, h6, h7, h8, h9]

/-- C5: normalization first strips all non-digit characters
(`clean_phone`); iff exactly 10 digits remain, the result is those digits
as five 2-digit groups joined by single spaces (14 characters: the 10
digits plus 4 separator spaces); for any other digit count the result is
the stripped digit string unchanged. -/
theorem normalize_phone_correct (s : String) :
    ((clean_phone s.toList).length = 10 →
      (normalize_phone s).toList = List.intercalate [' '] (chunks2 (clean_phone s.toList)) ∧
      (normalize_phone s).toList.length = 14 ∧
      (normalize_phone s).toList.count ' ' = 4 ∧
      (normalize_phone s).toList.filter Char.isDigit = clean_phone s.toList) ∧
    ((clean_phone s.toList).length ≠ 10 →
      (normalize_phone s).toList = clean_phone s.toList) := by
  constructor
  · intro h10
    have hd : ∀ c ∈ clean_phone s.toList, c.isDigit = true := by
      intro c hc
      exact (List.mem_filter.mp hc).2
    exact format_phone_ten (clean_phone s.toList) h10 hd
  · intro hne
    simp [normalize_phone, format_phone, hne]
    exact fun h => absurd h hne

def c5_phone : String := "05-37 12.34(56)"

theorem normalize_phone_correct_witness :
    (clean_phone c5_phone.toList).length = 10 ∧
    ((normalize_phone c5_phone).toList =
        List.intercalate [' '] (chunks2 (clean_phone c5_phone.toList)) ∧
      (normalize_phone c5_phone).toList.length = 14 ∧
      (normalize_phone c5_phone).toList.count ' ' = 4 ∧
      (normalize_phone c5_phone).toList.filter Char.isDigit = clean_phone c5_phone.toList) :=
  ⟨by decide, (normalize_phone_correct c5_phone).1 (by decide)⟩

/-- Python's substring test `pat in s` on character lists. -/
def contains_sub (pat : List Char) : List Char → Bool
  | [] => pat.isEmpty
  | c :: rest => pat.isPrefixOf (c :: rest) || contains_sub pat rest

/-- The category filter of `pharmacy_scraper.py` line 87:
`'/pharmacies/' in link['href']`. -/
def is_pharmacy_link (href : String) : Bool :=
  contains_sub "/pharmacies/".toList href.toList

/-- One `li.ag_listing_item` container as seen by the parser: the href of
its first `<a href>` (if any) and the stripped text of the name, locality
and phone elements (when present). -/
structure Listing where
  link : Option String
  nameText : Option String
  cityText : Option String
  phoneText : Option String
  deriving DecidableEq

/-- Python whitespace, as stripped by `str.strip()`. -/
def py_is_space (c : Char) : Bool :=
  decide (c = ' ' ∨ c = '\t' ∨ c = '\n' ∨ c = '\r' ∨ c = '\x0b' ∨ c = '\x0c')

/-- `str.strip()`. -/
def py_strip (l : List Char) : List Char :=
  ((l.dropWhile py_is_space).reverse.dropWhile py_is_space).reverse

/-- `city.replace("\n", "").replace("\r", "").strip()`
(`pharmacy_scraper.py` line 99). -/
def normalize_city (s : String) : String :=
  String.mk (py_strip (s.toList.filter (fun c => decide (c ≠ '\n' ∧ c ≠ '\r'))))

/-- The per-listing body of `PharmacyScraper.scrape_page`
(`pharmacy_scraper.py` lines 83-123): reject a listing whose first link is
absent or does not contain `/pharmacies/`; skip it when the name element
is absent; default the locality to `Kénitra` and the phone to the empty
string. `none` models the `continue` paths. -/
def process_listing (page_number : Nat) (url : String) (l : Listing) : Option PharmacyRaw :=
  match l.link with
  | none => none
  | some href =>
    if is_pharmacy_link href then
      match l.nameText with
      | none => none
      | some name =>
        let city := normalize_city (match l.cityText with | some c => c | none => "Kénitra")
        let phone := match l.phoneText with
          | some pt => normalize_phone pt
          | none => ""
        some ⟨name, name ++ ", " ++ city ++ ", Morocco", city, phone, page_number, url⟩
    else none

def base_url : String :=
  "https://www.annuaire-gratuit.ma/recherche/pharmacies-ville-kénitra-pg"

/-- `PharmacyScraper.scrape_page` (`pharmacy_scraper.py` lines 66-134):
the page-level `try` returns `[]` on any fetch/parse failure; otherwise
each listing is processed in order and failures are skipped. The oracle
maps a page number to its fetched list of listing containers, or to a
fetch/parse failure. -/
def scrape_page (oracle : Nat → Except Unit (List Listing)) (page_number : Nat) :
    List PharmacyRaw :=
  match oracle page_number with
  | .error _ => []
  | .ok listings =>
    listings.filterMap (process_listing page_number (base_url ++ toString page_number))

/-- `PharmacyScraper.scrape_all_pages` (`pharmacy_scraper.py` lines
136-149): iterate `range(start_page, end_page + 1)` extending the
accumulator with each page's records. -/
def scrape_all_pages (oracle : Nat → Except Unit (List Listing))
    (start_page end_page : Nat) : List PharmacyRaw :=
  (List.range' start_page (end_page + 1 - start_page)).foldl
    (fun acc page => acc ++ scrape_page oracle page) []

theorem foldl_append_eq_join {α β : Type} (L : List α) (f : α → List β) (acc : List β) :
    L.foldl (fun a p => a ++ f p) acc = acc ++ (L.map f).flatten := by
  induction L generalizing acc with
  | nil => simp
  | cons x xs ih => simp [ih, List.append_assoc]

/-- C6: the pagination driver's output is the concatenation of the
per-page results over the page range in increasing order; a page whose
fetch or parse fails contributes zero records (without raising), and a
page none of whose listings yields a record contributes zero records —
subsequent pages are still processed. -/
theorem scrape_all_pages_concat (oracle : Nat → Except Unit (List Listing))
    (s e : Nat) :
    scrape_all_pages oracle s e =
      ((List.range' s (e + 1 - s)).map (scrape_page oracle)).flatten ∧
    (∀ p, oracle p = .error () → scrape_page oracle p = []) ∧
    (∀ p ls, oracle p = .ok ls →
      (∀ l ∈ ls, process_listing p (base_url ++ toString p) l = none) →
      scrape_page oracle p = []) := by
  refine ⟨?_, ?_, ?_⟩
  · simpa using foldl_append_eq_join (List.range' s (e + 1 - s)) (scrape_page oracle) []
  · intro p hp
    simp [scrape_page, hp]
  · intro p ls hls hnone
    simp only [scrape_page, hls]
    exact List.filterMap_eq_nil_iff.mpr hnone

def c6_oracle : Nat → Except Unit (List Listing) :=
  fun p =>
    if p = 1 then
      Except.ok [⟨some "/pharmacies/pharmacie-a", some "Pharmacie A", none, none⟩]
    else if p = 2 then Except.error ()
    else Except.ok [⟨some "/autre/entite-b", some "Entite B", none, none⟩]

theorem scrape_all_pages_concat_witness :
    scrape_all_pages c6_oracle 1 3 =
      ((List.range' 1 3).map (scrape_page c6_oracle)).flatten ∧
    scrape_page c6_oracle 2 = [] ∧
    scrape_page c6_oracle 3 = [] := by
  refine ⟨?_, ?_, ?_⟩
  · simpa using (scrape_all_pages_concat c6_oracle 1 3).1
  · exact (scrape_all_pages_concat c6_oracle 1 3).2.1 2 rfl
  · refine (scrape_all_pages_concat c6_oracle 1 3).2.2 3
      [⟨some "/autre/entite-b", some "Entite B", none, none⟩] rfl ?_
    intro l hl
    rw [List.mem_singleton] at hl
    subst hl
    rfl

/-- C8: a listing yields a record only if its first link points at a
pharmacy-category path and it has a name element; a listing failing the
category filter or lacking a name yields no record; when it does yield a
record, a missing locality is replaced by the fallback string `Kénitra`
and a missing phone yields the empty string. -/
theorem process_listing_spec (pg : Nat) (url : String) (l : Listing) :
    (l.link = none → process_listing pg url l = none) ∧
    (∀ href, l.link = some href →
      is_pharmacy_link href = false →
      process_listing pg url l = none) ∧
    (l.nameText = none → process_listing pg url l = none) ∧
    (∀ href name, l.link = some href →
      is_pharmacy_link href = true →
      l.nameText = some name →
      (process_listing pg url l).isSome = true ∧
      (l.cityText = none →
        (process_listing pg url l).map PharmacyRaw.city = some "Kénitra") ∧
      (l.phoneText = none →
        (process_listing pg url l).map PharmacyRaw.phone = some "")) := by
  refine ⟨?_, ?_, ?_, ?_⟩
  · intro h
    simp [process_listing, h]
  · intro href hl hinf
    simp [process_listing, hl, hinf]
  · intro hn
    rcases hl : l.link with - | href
    · simp [process_listing, hl]
    · by_cases hinf : is_pharmacy_link href = true
      · simp [process_listing, hl, hinf, hn]
      · simp only [Bool.not_eq_true] at hinf
        simp [process_listing, hl, hinf]
  · intro href name hl hinf hn
    refine ⟨?_, ?_, ?_⟩
    · simp [process_listing, hl, hinf, hn]
    · intro hc
      simp [process_listing, hl, hinf, hn, hc]
      rfl
    · intro hp
      simp [process_listing, hl, hinf, hn, hp]

def c8_listing : Listing :=
  ⟨some "https://www.annuaire-gratuit.ma/pharmacies/pharmacie-centrale",
    some "Pharmacie Centrale", none, none⟩

theorem process_listing_spec_witness :
    (process_listing 1 "u" c8_listing).isSome = true ∧
    (process_listing 1 "u" c8_listing).map PharmacyRaw.city = some "Kénitra" ∧
    (process_listing 1 "u" c8_listing).map PharmacyRaw.phone = some "" := by
  have h := (process_listing_spec 1 "u" c8_listing).2.2.2
    "https://www.annuaire-gratuit.ma/pharmacies/pharmacie-centrale"
    "Pharmacie Centrale" rfl (by decide) rfl
  exact ⟨h.1, h.2.1 rfl, h.2.2 rfl⟩

/-- JSON values as produced/consumed by `json.dump` / `json.load`
(Python distinguishes ints from floats; object key order is preserved). -/
inductive JValue where
  | null : JValue
  | bool : Bool → JValue
  | int : Int → JValue
  | num : ℚ → JValue
  | str : String → JValue
  | arr : List JValue → JValue
  | obj : List (String × JValue) → JValue

/-- A record of `pharmacies_raw.json` as mutated by `quick_geocode.py` /
`resume_geocode.py`: the six `PharmacyRaw` keys are always present, while
`latitude` / `longitude` / `geocoded` exist only once the corresponding
dict key has been assigned (`none` models an absent key). -/
structure QuickRec where
  name : String
  address : String
  city : String
  phone : String
  page_number : Nat
  source_url : String
  latitude : Option ℚ
  longitude : Option ℚ
  geocoded : Option Bool
  deriving DecidableEq

/-- The fallback assignment of `quick_geocode.py` (both the `else` branch
and the `except` clause): Kenitra-center sentinel and `geocoded = False`. -/
def quick_fail (p : QuickRec) : QuickRec :=
  { p with
    latitude := some ((34261 : ℚ) / 1000)
    longitude := some (-(6587 : ℚ) / 1000)
    geocoded := some false }

/-- The per-record merge of `quick_geocode.py` lines 32-59: on status `OK`
with a nonempty results array, take the first result and set
`geocoded = True`; otherwise, and on a transport exception, set the
Kenitra-center sentinel `(34.261, -6.587)` and `geocoded = False`.
No `geocode_status` key is ever written in this script. -/
def quick_step (p : QuickRec) (o : Outcome) : QuickRec :=
  match o with
  | .error _ => quick_fail p
  | .ok data =>
    match data.results with
    | [] => quick_fail p
    | r :: _ =>
      if data.status = "OK" then
        { p with
          latitude := some r.lat
          longitude := some r.lng
          geocoded := some true }
      else quick_fail p

/-- The main loop of `quick_geocode.py` (lines 26-61): `i` is the 0-based
count of records already processed, `out` the `geocoded` list, `cps` the
checkpoint files written so far (tagged with the running 1-based count).
A checkpoint is written every 50th record, after appending; when the
iteration raises, the `except` clause appends the sentinel record and no
checkpoint is written in that iteration. -/
def quick_go :
    List (QuickRec × Outcome) → Nat → List QuickRec → List (Nat × List QuickRec) →
      List QuickRec × List (Nat × List QuickRec)
  | [], _, out, cps => (out, cps)
  | (p, o) :: rest, i, out, cps =>
    match o with
    | .ok d =>
      let out2 := out ++ [quick_step p (.ok d)]
      let cps2 := if (i + 1) % 50 = 0 then cps ++ [(i + 1, out2)] else cps
      quick_go rest (i + 1) out2 cps2
    | .error e => quick_go rest (i + 1) (out ++ [quick_step p (.error e)]) cps

/-- `quick_geocode.py` as a whole: returns the final `geocoded` list and
the checkpoint snapshots that were written. -/
def quick_drive (l : List (QuickRec × Outcome)) :
    List QuickRec × List (Nat × List QuickRec) :=
  quick_go l 0 [] []

theorem quick_go_fst (l : List (QuickRec × Outcome)) (i : Nat) (out : List QuickRec)
    (cps : List (Nat × List QuickRec)) :
    (quick_go l i out cps).1 = out ++ l.map (fun p => quick_step p.1 p.2) := by
  induction l generalizing i out cps with
  | nil => simp [quick_go]
  | cons x rest ih =>
    obtain ⟨p, o⟩ := x
    cases o with
    | ok d => simp [quick_go, ih, List.append_assoc]
    | error e => simp [quick_go, ih, List.append_assoc]

/-- C2 (amended): the `quick_geocode` driver emits exactly one record per
input record, in input traversal order — its output is the pointwise merge
of each input record with its outcome — and on a per-record exception the
record is still appended, carrying the Kenitra-center sentinel coordinates
and `geocoded = false` (this script writes no `geocode_status` field; the
`test_places_api` variant instead drops a record whose call raises, see
the counterexample). -/
theorem quick_drive_per_record (l : List (QuickRec × Outcome)) :
    (quick_drive l).1 = l.map (fun p => quick_step p.1 p.2) ∧
    (quick_drive l).1.length = l.length ∧
    (∀ p : QuickRec, quick_step p (.error ()) = quick_fail p ∧
      (quick_fail p).latitude = some ((34261 : ℚ) / 1000) ∧
      (quick_fail p).longitude = some (-(6587 : ℚ) / 1000) ∧
      (quick_fail p).geocoded = some false) := by
  refine ⟨quick_go_fst l 0 [] [], ?_, fun p => ⟨rfl, rfl, rfl, rfl⟩⟩
  rw [quick_drive, quick_go_fst l 0 [] []]
  simp

theorem quick_go_checkpoints (l : List (QuickRec × Outcome)) (i : Nat)
    (out : List QuickRec) (cps : List (Nat × List QuickRec))
    (hi : out.length = i)
    (hinv : ∀ c ∈ cps, c.2.length = c.1 ∧ c.1 ≤ out.length ∧ c.2 = out.take c.1) :
    ∀ c ∈ (quick_go l i out cps).2,
      c.2.length = c.1 ∧ c.1 ≤ (quick_go l i out cps).1.length ∧
        c.2 = (quick_go l i out cps).1.take c.1 := by
  induction l generalizing i out cps with
  | nil =>
    intro c hc
    exact hinv c hc
  | cons x rest ih =>
    obtain ⟨p, o⟩ := x
    cases o with
    | ok d =>
      simp only [quick_go]
      by_cases hb : (i + 1) % 50 = 0
      · simp only [hb, if_true]
        refine ih (i + 1) (out ++ [quick_step p (.ok d)]) _ (by simp [hi]) ?_
        intro c hc
        rcases List.mem_append.mp hc with hc | hc
        · obtain ⟨h1, h2, h3⟩ := hinv c hc
          refine ⟨h1, by simp; omega, ?_⟩
          rw [List.take_append_of_le_length h2]
          exact h3
        · rw [List.mem_singleton] at hc
          subst hc
          refine ⟨by simp [hi], by simp [hi], ?_⟩
          rw [show (i + 1) = (out ++ [quick_step p (.ok d)]).length by simp [hi]]
          exact (List.take_length _).symm
      · simp only [hb, if_false]
        refine ih (i + 1) (out ++ [quick_step p (.ok d)]) _ (by simp [hi]) ?_
        intro c hc
        obtain ⟨h1, h2, h3⟩ := hinv c hc
        refine ⟨h1, by simp; omega, ?_⟩
        rw [List.take_append_of_le_length h2]
        exact h3
    | error e =>
      simp only [quick_go]
      refine ih (i + 1) (out ++ [quick_step p (.error e)]) _ (by simp [hi]) ?_
      intro c hc
      obtain ⟨h1, h2, h3⟩ := hinv c hc
      refine ⟨h1, by simp; omega, ?_⟩
      rw [List.take_append_of_le_length h2]
      exact h3

/-- C4 (amended): every checkpoint written by the `quick_geocode` driver
at running count `N` contains exactly `N` records and equals the
length-`N` prefix of the eventual full output (the `geocode_rabat`
variant violates this: its checkpoints dump the entire record list, see
the counterexample). -/
theorem quick_checkpoint_contents (l : List (QuickRec × Outcome))
    (c : Nat × List QuickRec) (hc : c ∈ (quick_drive l).2) :
    c.2.length = c.1 ∧ c.2 = (quick_drive l).1.take c.1 := by
  have h := quick_go_checkpoints l 0 [] [] rfl (by simp) c hc
  exact ⟨h.1, h.2.2⟩

def c4_rec : QuickRec := ⟨"Pharmacie A", "Pharmacie A, Kenitra, Morocco", "Kenitra", "", 1, "u", none, none, none⟩

def c4_resp : GeoResponse := ⟨"OK", [⟨34, -6, "F", none, none, none⟩]⟩

def c4_input : List (QuickRec × Outcome) := List.replicate 50 (c4_rec, Except.ok c4_resp)

def c4_snap : List QuickRec := List.replicate 50 (quick_step c4_rec (Except.ok c4_resp))

theorem quick_checkpoint_contents_witness :
    (50, c4_snap) ∈ (quick_drive c4_input).2 ∧
    c4_snap.length = 50 ∧ c4_snap = (quick_drive c4_input).1.take 50 := by
  have hm : (50, c4_snap) ∈ (quick_drive c4_input).2 := by
    have he : (quick_drive c4_input).2 = [(50, c4_snap)] := by decide
    rw [he]
    exact List.mem_singleton.mpr rfl
  exact ⟨hm, (quick_checkpoint_contents c4_input (50, c4_snap) hm).1,
    (quick_checkpoint_contents c4_input (50, c4_snap) hm).2⟩

/-- The success dict of `test_places_api.py` lines 43-69 for the 1-based
record index `i` (`result.get` defaults modelled on the optional fields;
`formatted_address` per the always-present convention above). -/
def tpa_success_obj (i : Nat) (raw : PharmacyRaw) (r : PlaceResult) (now : String) :
    List (String × JValue) :=
  [("id", .str ("pharmacy_kenitra_" ++ pad4 i)),
   ("name", .str raw.name),
   ("name_ar", .null),
   ("address", .str r.formatted_address),
   ("address_ar", .null),
   ("city", .str raw.city),
   ("latitude", .num r.lat),
   ("longitude", .num r.lng),
   ("phone_number", .str raw.phone),
   ("email", .null),
   ("website", .null),
   ("opening_hours", .str "Lun-Ven: 09:00-19:00 | Sam: 09:00-13:00"),
   ("is_24_hours", .bool false),
   ("has_parking", .bool false),
   ("is_guard_pharmacy", .bool false),
   ("rating", .num (match r.rating with | some q => q | none => 0)),
   ("review_count", .int (match r.user_ratings_total with | some n => n | none => 0)),
   ("image_url", .null),
   ("services", .arr []),
   ("distance", .null),
   ("last_updated", .str now),
   ("geocoded", .bool true),
   ("geocode_status", .str "OK"),
   ("place_id", .str (match r.place_id with | some s => s | none => ""))]

/-- The not-found dict of `test_places_api.py` lines 71-85 (note its
reduced key set). -/
def tpa_failure_obj (i : Nat) (raw : PharmacyRaw) (status : String) :
    List (String × JValue) :=
  [("id", .str ("pharmacy_kenitra_" ++ pad4 i)),
   ("name", .str raw.name),
   ("address", .str raw.address),
   ("city", .str raw.city),
   ("latitude", .num 0),
   ("longitude", .num 0),
   ("phone_number", .str raw.phone),
   ("geocoded", .bool false),
   ("geocode_status", .str status)]

/-- The loop body of `test_places_api.py` lines 24-93: on a response with
status `OK` and nonempty results, append the success dict; on any other
response, append the failure dict; on an exception, append NOTHING (the
`except` clause only prints) — the record is dropped. -/
def tpa_go (now : String) : List (PharmacyRaw × Outcome) → Nat → List (List (String × JValue))
  | [], _ => []
  | (raw, o) :: rest, i =>
    match o with
    | .error _ => tpa_go now rest (i + 1)
    | .ok d =>
      match d.results with
      | [] => tpa_failure_obj i raw d.status :: tpa_go now rest (i + 1)
      | r :: _ =>
        if d.status = "OK" then tpa_success_obj i raw r now :: tpa_go now rest (i + 1)
        else tpa_failure_obj i raw d.status :: tpa_go now rest (i + 1)

/-- `test_places_api.py` as a whole: only the first 10 raw records are
processed (`raw_pharmacies[:10]`), with 1-based enumeration. -/
def tpa_drive (now : String) (l : List (PharmacyRaw × Outcome)) :
    List (List (String × JValue)) :=
  tpa_go now (l.take 10) 1

def tpa_cex_raw : PharmacyRaw :=
  ⟨"Pharmacie B", "Pharmacie B, Kénitra, Morocco", "Kénitra", "", 1, "u"⟩

/-- C2 (counterexample to the claim as stated): in the `test_places_api`
variant of the geocoding driver, a record whose Geocoder call raises a
transport exception is dropped — one input record produces zero output
records — rather than being appended with sentinel coordinates and status
`ERROR`. -/
theorem tpa_exception_drops_record :
    (tpa_drive "t" [(tpa_cex_raw, Except.error ())]).length = 0 ∧
    [(tpa_cex_raw, (Except.error () : Outcome))].length = 1 := by
  exact ⟨rfl, rfl⟩

/-- A record of `rabat_pharmacies_raw.json` (built by `scrape_rabat.py`
lines 38-46): all seven keys are always present. -/
structure RabatRec where
  name : String
  phone : String
  address : String
  city : String
  geocoded : Bool
  latitude : ℚ
  longitude : ℚ
  deriving DecidableEq

def rabat_dummy : RabatRec := ⟨"", "", "", "", false, 0, 0⟩

/-- The per-record mutation of `geocode_rabat.py` lines 21-31: only a
status-`OK` response with a nonempty results array mutates the record
(there is no `else` branch); a status-`OK` response with an empty results
array raises `IndexError` at `data['results'][0]`, swallowed by the bare
`except: pass`, leaving the record unchanged, as does a transport
exception. -/
def rabat_step (p : RabatRec) (o : Outcome) : RabatRec :=
  match o with
  | .error _ => p
  | .ok d =>
    if d.status = "OK" then
      match d.results with
      | [] => p
      | r :: _ =>
        { p with
          latitude := r.lat
          longitude := r.lng
          geocoded := true }
    else p

/-- Whether iteration `i` of `geocode_rabat.py` raises (in which case the
checkpoint write and the sleep of that iteration are skipped). -/
def rabat_raises (o : Outcome) : Bool :=
  match o with
  | .error _ => true
  | .ok d => decide (d.status = "OK" ∧ d.results = [])

/-- The loop of `geocode_rabat.py` lines 20-35 over 0-based positions `k`
of the in-place-mutated list `cur` (`n` is the number of remaining
records). A checkpoint written at 1-based count `k + 1` dumps the ENTIRE
current list `json.dump(pharmacies, f)` — not the processed prefix. -/
def rabat_go (os : Nat → Outcome) :
    Nat → Nat → List RabatRec → List (Nat × List RabatRec) →
      List RabatRec × List (Nat × List RabatRec)
  | 0, _, cur, cps => (cur, cps)
  | n + 1, k, cur, cps =>
    let o := os k
    let cur2 := cur.set k (rabat_step (cur.getD k rabat_dummy) o)
    let cps2 :=
      if rabat_raises o = false ∧ (k + 1) % 50 = 0 then cps ++ [(k + 1, cur2)] else cps
    rabat_go os n (k + 1) cur2 cps2

/-- `geocode_rabat.py` as a whole: final list plus checkpoints written. -/
def rabat_drive (init : List RabatRec) (os : Nat → Outcome) :
    List RabatRec × List (Nat × List RabatRec) :=
  rabat_go os init.length 0 init []

def rabat_cex_init : List RabatRec :=
  List.replicate 51 ⟨"Pharmacie C", "", "Pharmacie C, Rabat, Morocco", "Rabat", false, 0, 0⟩

def rabat_cex_os : Nat → Outcome := fun _ => Except.ok ⟨"ZERO_RESULTS", []⟩

/-- C4 (counterexample to the claim as stated): running the
`geocode_rabat` driver on 51 records (every response `ZERO_RESULTS`), the
checkpoint written at running count 50 contains all 51 records — not
exactly 50 — because the script dumps the whole list at every checkpoint
tick. -/
theorem rabat_checkpoint_whole_list_cex :
    (rabat_drive rabat_cex_init rabat_cex_os).2.map (fun c => (c.1, c.2.length)) = [(50, 51)] ∧
    ¬ (∀ c ∈ (rabat_drive rabat_cex_init rabat_cex_os).2, c.2.length = c.1) := by
  constructor
  · rfl
  · decide

/-- The per-record mutation of `resume_geocode.py` lines 26-36: identical
shape to the Rabat loop — only a status-`OK` response with nonempty
results assigns `latitude`/`longitude`/`geocoded`; everything else
(non-`OK` status, `IndexError` on empty results, transport exception,
all swallowed by `except: pass`) leaves the record untouched. -/
def resume_step (p : QuickRec) (o : Outcome) : QuickRec :=
  match o with
  | .error _ => p
  | .ok d =>
    if d.status = "OK" then
      match d.results with
      | [] => p
      | r :: _ =>
        { p with
          latitude := some r.lat
          longitude := some r.lng
          geocoded := some true }
    else p

/-- The loop `for i in range(400, len(pharmacies))` of `resume_geocode.py`
applied to the records from absolute index `i` on. -/
def resume_process_from (os : Nat → Outcome) : Nat → List QuickRec → List QuickRec
  | _, [] => []
  | i, p :: rest => resume_step p (os i) :: resume_process_from os (i + 1) rest

/-- `resume_geocode.py` lines 5-49: merge `completed + raw_pharmacies[400:]`,
then geocode only the records at indices `400, 401, ...` in place. -/
def resume_run (completed raw : List QuickRec) (os : Nat → Outcome) : List QuickRec :=
  let ps := completed ++ raw.drop 400
  ps.take 400 ++ resume_process_from os 400 (ps.drop 400)

/-- The non-geocoding fields of a record — everything except
`latitude`, `longitude` and `geocoded`. -/
def quick_core (p : QuickRec) : String × String × String × String × Nat × String :=
  (p.name, p.address, p.city, p.phone, p.page_number, p.source_url)

theorem resume_step_core (p : QuickRec) (o : Outcome) :
    quick_core (resume_step p o) = quick_core p := by
  cases o with
  | error e => rfl
  | ok d =>
    obtain ⟨st, rs⟩ := d
    by_cases hs : st = "OK"
    · cases rs <;> simp [resume_step, hs, quick_core]
    · simp [resume_step, hs, quick_core]

theorem resume_process_from_map_core (os : Nat → Outcome) (i : Nat) (l : List QuickRec) :
    (resume_process_from os i l).map quick_core = l.map quick_core := by
  induction l generalizing i with
  | nil => rfl
  | cons p rest ih => simp [resume_process_from, resume_step_core, ih]

theorem resume_process_from_length (os : Nat → Outcome) (i : Nat) (l : List QuickRec) :
    (resume_process_from os i l).length = l.length := by
  induction l generalizing i with
  | nil => rfl
  | cons p rest ih => simp [resume_process_from, ih]

/-- C10: in the resume variant of the geocoding driver every record below
the resume point 400 appears in the final output exactly as loaded (when
the checkpoint holds exactly 400 records, the output's 400-prefix IS the
checkpoint content), the output has one record per merged input record,
and no record's non-geocoding fields (name, address, city, phone,
page number, source url) are ever modified — only `latitude`, `longitude`
and `geocoded` of records at indices ≥ 400 can change. -/
theorem resume_run_frame (completed raw : List QuickRec) (os : Nat → Outcome) :
    (resume_run completed raw os).take 400 = (completed ++ raw.drop 400).take 400 ∧
    (resume_run completed raw os).length = (completed ++ raw.drop 400).length ∧
    (resume_run completed raw os).map quick_core = (completed ++ raw.drop 400).map quick_core ∧
    (completed.length = 400 → (resume_run completed raw os).take 400 = completed) := by
  have htake : (resume_run completed raw os).take 400 =
      (completed ++ raw.drop 400).take 400 := by
    rw [resume_run, List.take_append_eq_append_take]
    rcases le_or_lt 400 (completed ++ raw.drop 400).length with h | h
    · have hlen : ((completed ++ raw.drop 400).take 400).length = 400 := by
        simp only [List.length_take, List.length_append] at h ⊢
        omega
      simp [hlen, List.take_take]
    · have hdrop : (completed ++ raw.drop 400).drop 400 = [] :=
        List.drop_eq_nil_of_le (le_of_lt h)
      simp [hdrop, resume_process_from, List.take_take]
  refine ⟨htake, ?_, ?_, ?_⟩
  · rw [resume_run]
    simp [resume_process_from_length]
    omega
  · rw [resume_run]
    rw [List.map_append, resume_process_from_map_core, ← List.map_append,
      List.take_append_drop]
  · intro hc
    rw [htake]
    calc (completed ++ raw.drop 400).take 400
        = (completed ++ raw.drop 400).take completed.length := by rw [hc]
      _ = completed := List.take_left completed (raw.drop 400)

def c10_rec : QuickRec :=
  ⟨"Pharmacie D", "Pharmacie D, Kenitra, Morocco", "Kenitra", "", 2, "u",
    some 34, some (-6), some true⟩

def c10_completed : List QuickRec := List.replicate 400 c10_rec

def c10_raw : List QuickRec :=
  List.replicate 405 ⟨"Pharmacie E", "Pharmacie E, Kenitra, Morocco", "Kenitra", "", 3, "u",
    none, none, none⟩

theorem resume_run_frame_witness :
    c10_completed.length = 400 ∧
    (resume_run c10_completed c10_raw (fun _ => Except.error ())).take 400 = c10_completed :=
  ⟨by rw [c10_completed]; exact List.length_replicate 400 c10_rec,
    (resume_run_frame c10_completed c10_raw (fun _ => Except.error ())).2.2.2
      (by rw [c10_completed]; exact List.length_replicate 400 c10_rec)⟩

/-- `None`-able string field of the `asdict(Pharmacy)` serialization. -/
def jstr_opt (x : Option String) : JValue :=
  match x with
  | some s => .str s
  | none => .null

/-- `None`-able float field of the `asdict(Pharmacy)` serialization. -/
def jnum_opt (x : Option ℚ) : JValue :=
  match x with
  | some q => .num q
  | none => .null

/-- `PharmacyScraper.save_to_json` / `save_checkpoint`
(`pharmacy_scraper.py` lines 242-254) per record: `asdict(p)` keeps the
dataclass field order; `json.dump` preserves object key order, strings
(non-ASCII included, via `ensure_ascii=False`), booleans, `None` and
numbers. -/
def pharmacy_to_json (p : Pharmacy) : JValue :=
  .obj [("id", .str p.id), ("name", .str p.name), ("name_ar", jstr_opt p.name_ar),
    ("address", .str p.address), ("address_ar", jstr_opt p.address_ar),
    ("city", .str p.city), ("latitude", .num p.latitude), ("longitude", .num p.longitude),
    ("phone_number", .str p.phone_number), ("email", jstr_opt p.email),
    ("website", jstr_opt p.website), ("opening_hours", .str p.opening_hours),
    ("is_24_hours", .bool p.is_24_hours), ("has_parking", .bool p.has_parking),
    ("is_guard_pharmacy", .bool p.is_guard_pharmacy), ("rating", .num p.rating),
    ("review_count", .int p.review_count), ("image_url", jstr_opt p.image_url),
    ("services", .arr (p.services.map JValue.str)), ("distance", jnum_opt p.distance),
    ("last_updated", .str p.last_updated), ("geocoded", .bool p.geocoded),
    ("geocode_status", .str p.geocode_status)]

def as_str : JValue → Option String
  | .str s => some s
  | _ => none

def as_str_opt : JValue → Option (Option String)
  | .null => some none
  | .str s => some (some s)
  | _ => none

def as_num : JValue → Option ℚ
  | .num q => some q
  | _ => none

def as_num_opt : JValue → Option (Option ℚ)
  | .null => some none
  | .num q => some (some q)
  | _ => none

def as_bool : JValue → Option Bool
  | .bool b => some b
  | _ => none

def as_int : JValue → Option Int
  | .int n => some n
  | _ => none

def as_str_list : List JValue → Option (List String)
  | [] => some []
  | v :: rest =>
    match as_str v, as_str_list rest with
    | some s, some l => some (s :: l)
    | _, _ => none

/-- Read the next field of a record-shaped object: the head pair must
carry the expected key (asdict emits keys in dataclass order) and a value
accepted by the field decoder. -/
def read_field {A : Type} (key : String) (dec : JValue → Option A)
    (l : List (String × JValue)) : Option (A × List (String × JValue)) :=
  match l with
  | [] => none
  | (k, v) :: rest => if k = key then (dec v).map (fun a => (a, rest)) else none

/-- Reading one record back from the persisted JSON (`json.load` of the
array written by `save_to_json`): accepts exactly the record-shaped
objects and recovers every field. -/
def dec_identity (l : List (String × JValue)) :
    Option ((String × String × Option String × String × Option String × String) ×
      List (String × JValue)) := do
  let r1 ← read_field "id" as_str l
  let r2 ← read_field "name" as_str r1.2
  let r3 ← read_field "name_ar" as_str_opt r2.2
  let r4 ← read_field "address" as_str r3.2
  let r5 ← read_field "address_ar" as_str_opt r4.2
  let r6 ← read_field "city" as_str r5.2
  pure ((r1.1, r2.1, r3.1, r4.1, r5.1, r6.1), r6.2)

def dec_contact (l : List (String × JValue)) :
    Option ((ℚ × ℚ × String × Option String × Option String × String) ×
      List (String × JValue)) := do
  let r1 ← read_field "latitude" as_num l
  let r2 ← read_field "longitude" as_num r1.2
  let r3 ← read_field "phone_number" as_str r2.2
  let r4 ← read_field "email" as_str_opt r3.2
  let r5 ← read_field "website" as_str_opt r4.2
  let r6 ← read_field "opening_hours" as_str r5.2
  pure ((r1.1, r2.1, r3.1, r4.1, r5.1, r6.1), r6.2)

def dec_flags (l : List (String × JValue)) :
    Option ((Bool × Bool × Bool × ℚ × Int × Option String) × List (String × JValue)) := do
  let r1 ← read_field "is_24_hours" as_bool l
  let r2 ← read_field "has_parking" as_bool r1.2
  let r3 ← read_field "is_guard_pharmacy" as_bool r2.2
  let r4 ← read_field "rating" as_num r3.2
  let r5 ← read_field "review_count" as_int r4.2
  let r6 ← read_field "image_url" as_str_opt r5.2
  pure ((r1.1, r2.1, r3.1, r4.1, r5.1, r6.1), r6.2)

def dec_tail (l : List (String × JValue)) :
    Option ((List String × Option ℚ × String × Bool × String) × List (String × JValue)) := do
  let r1 ← read_field "services"
    (fun v => match v with | .arr a => as_str_list a | _ => none) l
  let r2 ← read_field "distance" as_num_opt r1.2
  let r3 ← read_field "last_updated" as_str r2.2
  let r4 ← read_field "geocoded" as_bool r3.2
  let r5 ← read_field "geocode_status" as_str r4.2
  pure ((r1.1, r2.1, r3.1, r4.1, r5.1), r5.2)

/-- Reading one record back from the persisted JSON (`json.load` of the
array written by `save_to_json`): accepts exactly the record-shaped
objects (`asdict` key order) and recovers every field. -/
def pharmacy_of_fields (l : List (String × JValue)) : Option Pharmacy := do
  let g1 ← dec_identity l
  let g2 ← dec_contact g1.2
  let g3 ← dec_flags g2.2
  let g4 ← dec_tail g3.2
  match g4.2 with
  | [] =>
    pure ⟨g1.1.1, g1.1.2.1, g1.1.2.2.1, g1.1.2.2.2.1, g1.1.2.2.2.2.1, g1.1.2.2.2.2.2,
      g2.1.1, g2.1.2.1, g2.1.2.2.1, g2.1.2.2.2.1, g2.1.2.2.2.2.1, g2.1.2.2.2.2.2,
      g3.1.1, g3.1.2.1, g3.1.2.2.1, g3.1.2.2.2.1, g3.1.2.2.2.2.1, g3.1.2.2.2.2.2,
      g4.1.1, g4.1.2.1, g4.1.2.2.1, g4.1.2.2.2.1, g4.1.2.2.2.2⟩
  | _ => none

def pharmacy_of_json : JValue → Option Pharmacy
  | .obj l => pharmacy_of_fields l
  | _ => none

/-- The full persisted file: a JSON array of record objects. -/
def pharmacies_to_json (ps : List Pharmacy) : JValue := .arr (ps.map pharmacy_to_json)

def decode_pharmacy_list : List JValue → Option (List Pharmacy)
  | [] => some []
  | v :: rest =>
    match pharmacy_of_json v, decode_pharmacy_list rest with
    | some p, some ps => some (p :: ps)
    | _, _ => none

def pharmacies_of_json : JValue → Option (List Pharmacy)
  | .arr l => decode_pharmacy_list l
  | _ => none

theorem as_str_opt_jstr_opt (x : Option String) : as_str_opt (jstr_opt x) = some x := by
  cases x <;> rfl

theorem as_num_opt_jnum_opt (x : Option ℚ) : as_num_opt (jnum_opt x) = some x := by
  cases x <;> rfl

theorem as_str_list_map (l : List String) : as_str_list (l.map JValue.str) = some l := by
  induction l with
  | nil => rfl
  | cons s rest ih => simp [as_str_list, as_str, ih]

theorem read_field_cons {A : Type} (key : String) (dec : JValue → Option A)
    (v : JValue) (rest : List (String × JValue)) :
    read_field key dec ((key, v) :: rest) = (dec v).map (fun a => (a, rest)) := by
  simp [read_field]

theorem dec_identity_enc (id name : String) (name_ar : Option String) (address : String)
    (address_ar : Option String) (city : String) (rest : List (String × JValue)) :
    dec_identity (("id", .str id) :: ("name", .str name) :: ("name_ar", jstr_opt name_ar) ::
        ("address", .str address) :: ("address_ar", jstr_opt address_ar) ::
        ("city", .str city) :: rest) =
      some ((id, name, name_ar, address, address_ar, city), rest) := by
  simp [dec_identity, read_field_cons, as_str, as_str_opt_jstr_opt]

theorem dec_contact_enc (latitude longitude : ℚ) (phone_number : String)
    (email website : Option String) (opening_hours : String)
    (rest : List (String × JValue)) :
    dec_contact (("latitude", .num latitude) :: ("longitude", .num longitude) ::
        ("phone_number", .str phone_number) :: ("email", jstr_opt email) ::
        ("website", jstr_opt website) :: ("opening_hours", .str opening_hours) :: rest) =
      some ((latitude, longitude, phone_number, email, website, opening_hours), rest) := by
  simp [dec_contact, read_field_cons, as_str, as_num, as_str_opt_jstr_opt]

theorem dec_flags_enc (is_24_hours has_parking is_guard_pharmacy : Bool) (rating : ℚ)
    (review_count : Int) (image_url : Option String) (rest : List (String × JValue)) :
    dec_flags (("is_24_hours", .bool is_24_hours) :: ("has_parking", .bool has_parking) ::
        ("is_guard_pharmacy", .bool is_guard_pharmacy) :: ("rating", .num rating) ::
        ("review_count", .int review_count) :: ("image_url", jstr_opt image_url) :: rest) =
      some ((is_24_hours, has_parking, is_guard_pharmacy, rating, review_count, image_url),
        rest) := by
  simp [dec_flags, read_field_cons, as_bool, as_num, as_int, as_str_opt_jstr_opt]

theorem dec_tail_enc (services : List String) (distance : Option ℚ) (last_updated : String)
    (geocoded : Bool) (geocode_status : String) (rest : List (String × JValue)) :
    dec_tail (("services", .arr (services.map JValue.str)) :: ("distance", jnum_opt distance) ::
        ("last_updated", .str last_updated) :: ("geocoded", .bool geocoded) ::
        ("geocode_status", .str geocode_status) :: rest) =
      some ((services, distance, last_updated, geocoded, geocode_status), rest) := by
  simp [dec_tail, read_field_cons, as_str, as_bool, as_num_opt_jnum_opt, as_str_list_map]

theorem pharmacy_of_to_json (p : Pharmacy) : pharmacy_of_json (pharmacy_to_json p) = some p := by
  cases p
  simp [pharmacy_to_json, pharmacy_of_json, pharmacy_of_fields, dec_identity_enc,
    dec_contact_enc, dec_flags_enc, dec_tail_enc]

theorem decode_pharmacy_list_map (l : List Pharmacy) :
    decode_pharmacy_list (l.map pharmacy_to_json) = some l := by
  induction l with
  | nil => rfl
  | cons p rest ih => simp [decode_pharmacy_list, pharmacy_of_to_json, ih]

/-- C9: serializing an EnrichedRecord sequence to the JSON output format
(`save_to_json`: a JSON array of the `asdict` objects, in order) and
parsing that output back yields the same sequence of records,
field-for-field and in the same order — the persistence round-trip loses
no information. -/
theorem pharmacies_json_round_trip (ps : List Pharmacy) :
    pharmacies_of_json (pharmacies_to_json ps) = some ps := by
  simp [pharmacies_to_json, pharmacies_of_json, decode_pharmacy_list_map]

/-- `text.replace('"', '\\"')` on the character list: every double quote
gets a backslash inserted before it. -/
def escape_quotes_chars : List Char → List Char
  | [] => []
  | c :: rest =>
    if c = '"' then '\\' :: '"' :: escape_quotes_chars rest
    else c :: escape_quotes_chars rest

/-- One character of `text.replace('\n', ' ')`. -/
def nl_to_space (c : Char) : Char := if c = '\n' then ' ' else c

/-- `text.replace('\n', ' ')` on the character list. -/
def replace_nl_chars (l : List Char) : List Char := l.map nl_to_space

/-- `PharmacyScraper._escape_quotes` (`pharmacy_scraper.py` lines 331-333):
`text.replace('"', '\\"').replace('\n', ' ').strip()`. -/
def escape_quotes (s : String) : String :=
  String.mk (py_strip (replace_nl_chars (escape_quotes_chars s.toList)))

/-- `str(b).lower()` for a Python bool. -/
def py_bool (b : Bool) : String := if b then "true" else "false"

/-- One Kotlin literal entry, the f-string of
`PharmacyScraper._generate_pharmacy_entries` (`pharmacy_scraper.py` lines
304-326).  `name` and `address` pass through `_escape_quotes`; `city`,
`phone_number`, `opening_hours` and `last_updated` are interpolated
verbatim.  Python float `repr` is abstracted as `toString` on `ℚ`. -/
def pharmacy_entry (p : Pharmacy) : String :=
  "        Pharmacy(\n            id = \"" ++ p.id ++
    "\",\n            name = \"" ++ escape_quotes p.name ++
    "\",\n            nameAr = null,\n            address = \"" ++ escape_quotes p.address ++
    "\",\n            addressAr = null,\n            city = \"" ++ p.city ++
    "\",\n            latitude = " ++ toString p.latitude ++
    ",\n            longitude = " ++ toString p.longitude ++
    ",\n            phoneNumber = \"" ++ p.phone_number ++
    "\",\n            email = null,\n            website = null,\n            openingHours = \"" ++
    p.opening_hours ++
    "\",\n            is24Hours = " ++ py_bool p.is_24_hours ++
    ",\n            hasParking = " ++ py_bool p.has_parking ++
    ",\n            isGuardPharmacy = " ++ py_bool p.is_guard_pharmacy ++
    ",\n            rating = " ++ toString p.rating ++
    ",\n            reviewCount = " ++ toString p.review_count ++
    ",\n            imageUrl = null,\n            services = emptyList(),\n            distance = null,\n            lastUpdated = dateFormat.parse(\"" ++
    p.last_updated ++ "\") ?: Date()\n        )"

/-- The `entries` list of `_generate_pharmacy_entries`: one literal entry
per record. -/
def generate_pharmacy_entries_list (ps : List Pharmacy) : List String :=
  ps.map pharmacy_entry

/-- `',\n'.join(entries)` (`pharmacy_scraper.py` line 329). -/
def generate_pharmacy_entries (ps : List Pharmacy) : String :=
  String.intercalate ",\n" (generate_pharmacy_entries_list ps)

/-- The fixed template text of `generate_kotlin_data` before
`{pharmacy_list}` (`pharmacy_scraper.py` lines 258-273). -/
def kotlin_header (date : String) (count : Nat) : String :=
  "package com.pharmatech.morocco.features.pharmacy.domain.model\n\nimport java.util.Date\nimport java.text.SimpleDateFormat\n\n/**\n * Auto-generated pharmacy data for Kénitra\n * Generated on: " ++
    date ++ "\n * Total pharmacies: " ++ toString count ++
    "\n */\nobject KenitraPharmacyData \x7b\n    \n    private val dateFormat = SimpleDateFormat(\"yyyy-MM-dd\x27T\x27HH:mm:ss\")\n    \n    val pharmacies = listOf(\n"

/-- The fixed trailing helper block of `generate_kotlin_data` after
`{pharmacy_list}` (`pharmacy_scraper.py` lines 274-289). -/
def kotlin_footer : String :=
  "\n    )\n    \n    fun getAllPharmacies(): List<Pharmacy> = pharmacies\n    \n    fun getPharmacyById(id: String): Pharmacy? = pharmacies.find \x7b it.id == id \x7d\n    \n    fun searchPharmacies(query: String): List<Pharmacy> \x7b\n        val lowerQuery = query.lowercase()\n        return pharmacies.filter \x7b\n            it.name.lowercase().contains(lowerQuery) ||\n            it.address.lowercase().contains(lowerQuery) ||\n            it.phoneNumber.contains(query)\n        \x7d\n    \x7d\n\x7d\n"

/-- `PharmacyScraper.generate_kotlin_data` (`pharmacy_scraper.py` lines
256-297): header, joined entries, fixed trailing helper block. -/
def generate_kotlin_data (date : String) (ps : List Pharmacy) : String :=
  kotlin_header date ps.length ++ generate_pharmacy_entries ps ++ kotlin_footer

/-- Scanner: every `"` in the list is immediately preceded by `\`
(`prev` is the character before the current head; the initial previous
character is taken to be a space, so a leading `"` counts as bare). -/
def quotes_escaped_from (prev : Char) : List Char → Bool
  | [] => true
  | c :: rest =>
    (decide (c ≠ '"') || decide (prev = '\\')) && quotes_escaped_from c rest

def quotes_escaped (l : List Char) : Bool := quotes_escaped_from ' ' l

theorem quotes_escaped_from_swap (l : List Char) (p₁ p₂ : Char) (h1 : p₁ ≠ '\\')
    (h : quotes_escaped_from p₁ l = true) : quotes_escaped_from p₂ l = true := by
  cases l with
  | nil => rfl
  | cons c rest =>
    simp only [quotes_escaped_from, Bool.and_eq_true, Bool.or_eq_true,
      decide_eq_true_eq] at h ⊢
    refine ⟨?_, h.2⟩
    rcases h.1 with hc | hp
    · exact Or.inl hc
    · exact absurd hp h1

theorem quotes_escaped_from_append (l₁ l₂ : List Char) (p : Char)
    (h : quotes_escaped_from p (l₁ ++ l₂) = true) : quotes_escaped_from p l₁ = true := by
  induction l₁ generalizing p with
  | nil => rfl
  | cons c rest ih =>
    simp only [List.cons_append, quotes_escaped_from, Bool.and_eq_true] at h ⊢
    exact ⟨h.1, ih c h.2⟩

theorem escape_quotes_chars_scan (l : List Char) (p : Char) :
    quotes_escaped_from p (escape_quotes_chars l) = true := by
  induction l generalizing p with
  | nil => rfl
  | cons c rest ih =>
    by_cases hc : c = '"'
    · subst hc
      simp [escape_quotes_chars, quotes_escaped_from, ih]
    · simp [escape_quotes_chars, hc, quotes_escaped_from, ih]

theorem replace_nl_scan (l : List Char) (p : Char)
    (h : quotes_escaped_from p l = true) :
    quotes_escaped_from (nl_to_space p) (replace_nl_chars l) = true := by
  induction l generalizing p with
  | nil => rfl
  | cons c rest ih =>
    simp only [replace_nl_chars, List.map_cons, quotes_escaped_from, Bool.and_eq_true,
      Bool.or_eq_true, decide_eq_true_eq] at h ⊢
    refine ⟨?_, ih c h.2⟩
    rcases h.1 with hc | hp
    · left
      unfold nl_to_space
      by_cases hn : c = '\n'
      · rw [if_pos hn]
        decide
      · rw [if_neg hn]
        exact hc
    · right
      rw [hp]
      decide

theorem dropWhile_ws_scan (l : List Char) (p : Char) (hp : p ≠ '\\')
    (h : quotes_escaped_from p l = true) :
    quotes_escaped_from ' ' (l.dropWhile py_is_space) = true := by
  induction l generalizing p with
  | nil => rfl
  | cons c rest ih =>
    rw [List.dropWhile_cons]
    by_cases hc : py_is_space c = true
    · simp only [hc, if_true]
      have h2 : quotes_escaped_from c rest = true := by
        simp only [quotes_escaped_from, Bool.and_eq_true] at h
        exact h.2
      have hcb : c ≠ '\\' := by
        intro e
        rw [e] at hc
        exact absurd hc (by decide)
      exact ih c hcb h2
    · simp only [hc, if_false]
      exact quotes_escaped_from_swap _ p ' ' hp h

theorem py_strip_scan (l : List Char) (h : quotes_escaped_from ' ' l = true) :
    quotes_escaped_from ' ' (py_strip l) = true := by
  unfold py_strip
  have h1 : quotes_escaped_from ' ' (l.dropWhile py_is_space) = true :=
    dropWhile_ws_scan l ' ' (by decide) h
  have hpre : ((l.dropWhile py_is_space).reverse.dropWhile py_is_space).reverse <+:
      l.dropWhile py_is_space := by
    have hsuf : (l.dropWhile py_is_space).reverse.dropWhile py_is_space <:+
        (l.dropWhile py_is_space).reverse := List.dropWhile_suffix _
    have := List.reverse_prefix.mpr hsuf
    simpa using this
  obtain ⟨t, ht⟩ := hpre
  refine quotes_escaped_from_append _ t ' ' ?_
  rw [ht]
  exact h1

theorem py_strip_mem (l : List Char) (c : Char) (h : c ∈ py_strip l) : c ∈ l := by
  unfold py_strip at h
  rw [List.mem_reverse] at h
  have h2 : c ∈ (l.dropWhile py_is_space).reverse :=
    (List.dropWhile_sublist _).subset h
  rw [List.mem_reverse] at h2
  exact (List.dropWhile_sublist _).subset h2

theorem escape_quotes_no_newline (s : String) : '\n' ∉ (escape_quotes s).toList := by
  intro hm
  have h1 : '\n' ∈ replace_nl_chars (escape_quotes_chars s.toList) :=
    py_strip_mem _ _ hm
  obtain ⟨c, -, hc⟩ := List.mem_map.mp h1
  by_cases hn : c = '\n' <;> simp [nl_to_space, hn] at hc

theorem escape_quotes_scan (s : String) : quotes_escaped (escape_quotes s).toList = true := by
  have h1 := escape_quotes_chars_scan s.toList '\n'
  have h2 := replace_nl_scan _ '\n' h1
  have h3 : quotes_escaped_from ' '
      (replace_nl_chars (escape_quotes_chars s.toList)) = true := by
    simpa [nl_to_space] using h2
  exact py_strip_scan _ h3

theorem string_data_append (a b : String) : (a ++ b).data = a.data ++ b.data := by
  cases a
  cases b
  rfl

/-- C7 (amended): the emitter produces exactly one literal entry per input
record, and the fixed trailing helper block is a suffix of the emitted
text; the `name` and `address` fields pass through `_escape_quotes`, whose
output never contains a newline and in which every double quote is
immediately preceded by a backslash — but the `city`, `phone_number`,
`opening_hours` and `last_updated` fields are interpolated without any
escaping (see the counterexample, where a double quote inside `city`
reaches the emitted literal unescaped). -/
theorem generate_kotlin_data_spec (ps : List Pharmacy) (date : String) (s : String) :
    (generate_pharmacy_entries_list ps).length = ps.length ∧
    kotlin_footer.toList <:+ (generate_kotlin_data date ps).toList ∧
    '\n' ∉ (escape_quotes s).toList ∧
    quotes_escaped (escape_quotes s).toList = true := by
  refine ⟨by simp [generate_pharmacy_entries_list], ?_,
    escape_quotes_no_newline s, escape_quotes_scan s⟩
  refine ⟨(kotlin_header date ps.length ++ generate_pharmacy_entries ps).toList, ?_⟩
  show (kotlin_header date ps.length ++ generate_pharmacy_entries ps).data ++
      kotlin_footer.data = (generate_kotlin_data date ps).data
  simp [generate_kotlin_data, string_data_append]

theorem generate_kotlin_data_spec_witness :
    (generate_pharmacy_entries_list [c1_witness_rec]).length = 1 ∧
    kotlin_footer.toList <:+ (generate_kotlin_data "d" [c1_witness_rec]).toList ∧
    '\n' ∉ (escape_quotes "Pharmacie \"Centrale\"\nKenitra").toList ∧
    quotes_escaped (escape_quotes "Pharmacie \"Centrale\"\nKenitra").toList = true := by
  have h := generate_kotlin_data_spec [c1_witness_rec] "d"
    "Pharmacie \"Centrale\"\nKenitra"
  exact ⟨h.1, h.2.1, h.2.2.1, h.2.2.2⟩

def c7_cex_pharmacy : Pharmacy :=
  { id := "pharmacy_kenitra_0001"
    name := "Pharmacie Centrale"
    name_ar := none
    address := "Pharmacie Centrale, K\"enitra, Morocco"
    address_ar := none
    city := "K\"enitra"
    latitude := 34
    longitude := -6
    phone_number := "05 37 00 00 00"
    email := none
    website := none
    opening_hours := "Lun-Ven: 09:00-19:00 | Sam: 09:00-13:00"
    is_24_hours := false
    has_parking := false
    is_guard_pharmacy := false
    rating := 0
    review_count := 0
    image_url := none
    services := []
    distance := none
    last_updated := "t"
    geocoded := true
    geocode_status := "OK" }

set_option maxRecDepth 100000

/-- C7 (counterexample to the claim as stated): the `city` field is
interpolated into the Kotlin literal with no escaping at all, so a record
whose city contains a double quote emits the text
`city = "K"enitra",` — an unescaped quote inside the emitted literal. -/
theorem generate_kotlin_data_city_unescaped_cex :
    contains_sub ("city = \"K\"enitra\",".toList)
      ((pharmacy_entry c7_cex_pharmacy).toList) = true := by
  decide
